import Mathlib

/-
Verification of the interface-configuration subsystem of smc-python
(`smc/core/interfaces.py`) against its natural-language specification.

Shallow embedding conventions:
- The engine's decoded JSON snapshot (`engine.data['physicalInterfaces']`,
  after `InterfaceModifier.byEngine` dispatches each fragment on its
  discriminator key) is modelled by `Engine`, a list of decoded top-level
  interfaces `Intf`, each holding decoded sub-interface fragments `SubIntf`
  and nested VLAN fragments `VlanIntf`.
- Python methods that mutate the fetched snapshot in place become pure
  functions from the old snapshot to the new one; methods that can raise
  return `Except SmcErr`.  `SmcErr.pyError` stands for a Python runtime
  error (AttributeError / StopIteration) on paths the source does not guard.
- The sub-interface classes live in `smc/core/sub_interfaces.py`, which is
  not part of the sources under verification; every definition taken from
  that module is marked `Modelled from the spec:` in its doc comment and
  follows the specification's description of sub-interfaces (variants,
  address/network/nodeid/nicid fields, exclusivity flags).
- `zone_helper` (remote zone-name resolution, external module) is threaded
  through as an opaque function parameter `zh` rather than being modelled.
-/

set_option autoImplicit false

/-- The exclusivity-constrained management roles a sub-interface may carry
(`primary_mgt`, `backup_mgt`, heartbeats, `outgoing`, `auth_request`). -/
inductive MgmtAttr where
  | primary_mgt
  | backup_mgt
  | primary_heartbeat
  | backup_heartbeat
  | outgoing
  | auth_request
deriving DecidableEq

/-- Discriminator of a decoded sub-interface fragment.  `Modelled from the
spec:` the variant set of `smc/core/sub_interfaces.py` (not under src/):
SingleNode, Node, ClusterVirtual, Inline (plus its L2FW/IPS specialisations
for layer 3 engines) and Capture. -/
inductive SubVariant where
  | single_node_interface
  | node_interface
  | cluster_virtual_interface
  | inline_interface
  | inline_l2fw_interface
  | inline_ips_interface
  | capture_interface
deriving DecidableEq, Inhabited

/-- Discriminator string used as the JSON key wrapping a sub-interface body
(wire format of section 6 of the spec). -/
def SubVariant.typeof : SubVariant → String
  | .single_node_interface => "single_node_interface"
  | .node_interface => "node_interface"
  | .cluster_virtual_interface => "cluster_virtual_interface"
  | .inline_interface => "inline_interface"
  | .inline_l2fw_interface => "inline_l2fw_interface"
  | .inline_ips_interface => "inline_ips_interface"
  | .capture_interface => "capture_interface"

/-- `isinstance(x, InlineInterface)`: the inline variant and its L2FW/IPS
subclasses. -/
def SubVariant.isInline : SubVariant → Bool
  | .inline_interface => true
  | .inline_l2fw_interface => true
  | .inline_ips_interface => true
  | _ => false

/-- Python dict lookup for a management flag key: `data.get(attr)`;
`none` models a key that is absent from the fragment. -/
def getFlag : List (MgmtAttr × Bool) → MgmtAttr → Option Bool
  | [], _ => none
  | (b, w) :: r, a => if b = a then some w else getFlag r a

/-- Python dict assignment `data[attr] = v`: overwrite an existing key or
append a new one. -/
def setFlag : List (MgmtAttr × Bool) → MgmtAttr → Bool → List (MgmtAttr × Bool)
  | [], a, v => [(a, v)]
  | (b, w) :: r, a, v => if b = a then (a, v) :: r else (b, w) :: setFlag r a v

/-- Decoded sub-interface fragment (`Modelled from the spec:` the
SubInterface data dict of `smc/core/sub_interfaces.py`, not under src/:
each fragment carries its variant, optional address/network/nodeid, a
`nicid` string, and the management flag keys present in its dict). -/
structure SubIntf where
  variant : SubVariant
  address : Option String
  network_value : Option String
  nodeid : Option Nat
  nicid : String
  flags : List (MgmtAttr × Bool)
deriving DecidableEq, Inhabited

/-- `getattr(sub_interface, attr)` on the flag keys. -/
def SubIntf.getAttr (s : SubIntf) (a : MgmtAttr) : Option Bool :=
  getFlag s.flags a

/-- `sub_interface[attr] = v` (dict-style assignment). -/
def SubIntf.setAttr (s : SubIntf) (a : MgmtAttr) (v : Bool) : SubIntf :=
  { s with flags := setFlag s.flags a v }

/-- Decoded VLAN fragment nested under a physical interface
(`vlanInterfaces` entry): composite `interface_id` "parent.vlan", its own
`interfaces` list, and the optional fields written by
`PhysicalVlanInterface.create`. -/
structure VlanIntf where
  interface_id : String
  interfaces : List SubIntf
  zone_ref : Option String
  comment : Option String
  virtual_mapping : Option String
  virtual_resource_name : Option String
deriving DecidableEq, Inhabited

/-- Decoded top-level interface body (`interface_id`, `interfaces`,
`vlanInterfaces`, plus the optional fields the claims touch). -/
structure Intf where
  interface_id : String
  interfaces : List SubIntf
  vlanInterfaces : List VlanIntf
  zone_ref : Option String
  comment : Option String
  macaddress : Option String
deriving DecidableEq, Inhabited

/-- The engine snapshot `InterfaceModifier.byEngine` decodes: the engine
type string and every top-level physical interface. -/
structure Engine where
  etype : String
  physicalInterfaces : List Intf
deriving DecidableEq, Inhabited

/-- Exceptions of `smc.api.exceptions` raised by this module, plus
`pyError` for unguarded Python runtime errors. -/
inductive SmcErr where
  | interfaceNotFound
  | modificationAborted
  | pyError
deriving DecidableEq

/-- `str(x)` applied to an optional interface id (Python renders `None` as
the string "None", which `set_unset` then compares nicids against). -/
def elseStr : Option String → String
  | some s => s
  | none => "None"

/-- Python truthiness of an optional string (`None` and `''` are falsy). -/
def strTruthy : Option String → Bool
  | none => false
  | some s => s ≠ ""

/-- Is the first character list a contiguous run of the second. -/
def listInfix (needle : List Char) : List Char → Bool
  | [] => needle.isEmpty
  | c :: r => needle.isPrefixOf (c :: r) || listInfix needle r

/-- Python `needle in haystack` on strings (substring test). -/
def strContains (haystack needle : String) : Bool :=
  listInfix needle.toList haystack.toList

/-- Split a character list on a separator character (Python
`str.split(sep)` semantics: no empty-separator case, keeps empty pieces). -/
def splitChar (c : Char) : List Char → List (List Char)
  | [] => [[]]
  | x :: r =>
    if x = c then [] :: splitChar c r
    else
      match splitChar c r with
      | h :: t => (x :: h) :: t
      | [] => [[x]]

/-- Python `s.split(c)` for a one-character separator. -/
def strSplitOn (s : String) (c : Char) : List String :=
  (splitChar c s.toList).map String.mk

/-- Python `c in s` for a single character. -/
def strContainsChar (s : String) (c : Char) : Bool :=
  s.toList.any (fun x => x = c)

/-- Python `sep.join(pieces)`. -/
def strJoin (sep : String) : List String → String
  | [] => ""
  | [x] => x
  | x :: r => x ++ sep ++ strJoin sep r

/-- Replace the element at an index, leaving the list unchanged when the
index is out of range (the functional image of mutating an aliased view). -/
def modifyAt {α : Type} : List α → Nat → (α → α) → List α
  | [], _, _ => []
  | x :: r, 0, f => f x :: r
  | x :: r, k + 1, f => x :: modifyAt r k f

/-- `Interface.has_vlan` (interfaces.py:471): does the body contain VLAN
fragments. -/
def Intf.has_vlan (i : Intf) : Bool :=
  !i.vlanInterfaces.isEmpty

/-- `Interface.has_interfaces` (interfaces.py:481): does the body contain
sub-interface fragments. -/
def Intf.has_interfaces (i : Intf) : Bool :=
  !i.interfaces.isEmpty

/-- `PhysicalVlanInterface.vlan_id` (interfaces.py:2016): the last
component of the composite id; when the first nested fragment is an exact
`inline_interface`, a distinct second VLAN tag (last dot-component of the
last dash-component of its nicid) is joined with '-'. -/
def VlanIntf.vlan_id (v : VlanIntf) : String :=
  let base := (strSplitOn v.interface_id '.').getLastD ""
  match v.interfaces with
  | [] => base
  | s :: _ =>
    if s.variant = .inline_interface then
      let second := (strSplitOn ((strSplitOn s.nicid '-').getLastD "") '.').getLastD ""
      if second ≠ base then base ++ "-" ++ second else base
    else base

/-- Index of the first VLAN fragment whose `vlan_id` equals the argument
(`VlanCollection.get_vlan`, interfaces.py:2135, fails with
InterfaceNotFound when absent). -/
def findVlanIdx : List VlanIntf → String → Option Nat
  | [], _ => none
  | v :: r, vid =>
    if v.vlan_id = vid then some 0
    else (findVlanIdx r vid).map (· + 1)

/-- `self.vlan_interface.get_vlan(vlan_id)` raising InterfaceNotFound when
no VLAN fragment matches. -/
def Intf.get_vlan (i : Intf) (vid : String) : Except SmcErr VlanIntf :=
  match findVlanIdx i.vlanInterfaces vid with
  | some k => .ok ((i.vlanInterfaces.get? k).getD default)
  | none => .error .interfaceNotFound

/-- A resolved interface view: either a top-level interface (by position) or
a VLAN fragment nested under one.  Mutations through the view act on the
engine snapshot at this position. -/
inductive IntfRef where
  | top (k : Nat)
  | vlan (k v : Nat)
deriving DecidableEq

/-- Inner inline scan of `InterfaceModifier.get` (interfaces.py:2258): an
inline sub-interface matches when the queried id equals its whole nicid or
one of the nicid's '-'-components. -/
def inlineIdMatch (iid : String) (subs : List SubIntf) : Bool :=
  subs.any (fun s =>
    s.variant.isInline &&
      (iid = s.nicid || (strSplitOn s.nicid '-').any (fun h => h = iid)))

/-- Loop body of `InterfaceModifier.get` (interfaces.py:2235-2268): plain id
match first; for a dotted id, the interface matching the leading component
resolves the VLAN (raising InterfaceNotFound when it has VLANs but not this
one) while an interface without VLANs falls through; otherwise an inline
nicid or either of its halves matches. -/
def getRefAux (iid : String) : List Intf → Nat → Except SmcErr IntfRef
  | [], _ => .error .interfaceNotFound
  | i :: rest, k =>
    if i.interface_id = iid then .ok (.top k)
    else if strContainsChar iid '.' then
      let parts := strSplitOn iid '.'
      if i.interface_id = parts.headD "" then
        if i.has_vlan then
          match findVlanIdx i.vlanInterfaces (parts.getLastD "") with
          | some v => .ok (.vlan k v)
          | none => .error .interfaceNotFound
        else getRefAux iid rest (k + 1)
      else getRefAux iid rest (k + 1)
    else if i.has_interfaces && inlineIdMatch iid i.interfaces then .ok (.top k)
    else getRefAux iid rest (k + 1)

/-- `InterfaceModifier.get(interface_id)` (interfaces.py:2235): resolve an
interface id to a view into the engine snapshot, or raise
InterfaceNotFound. -/
def InterfaceModifier.get (e : Engine) (iid : String) : Except SmcErr IntfRef :=
  getRefAux iid e.physicalInterfaces 0

/-- Dereference a view: the top-level interface body or the nested VLAN
fragment it points at. -/
def Engine.atRef (e : Engine) : IntfRef → Option (Intf ⊕ VlanIntf)
  | .top k => (e.physicalInterfaces.get? k).map Sum.inl
  | .vlan k v =>
    match e.physicalInterfaces.get? k with
    | some i => (i.vlanInterfaces.get? v).map Sum.inr
    | none => none

/-- The sub-interface fragments seen through `all_interfaces` of a resolved
view, excluding the PhysicalVlanInterface wrapper entries (a top-level view
yields its own `interfaces` list; a VLAN view yields the VLAN's nested
list; `all_interfaces` does not descend into sibling VLANs). -/
def Engine.subsAt (e : Engine) (r : IntfRef) : List SubIntf :=
  match e.atRef r with
  | some (.inl i) => i.interfaces
  | some (.inr v) => v.interfaces
  | none => []

/-- Apply a per-sub-interface mutation through a resolved view (the Python
code mutates the fragments yielded by the view's `all_interfaces`, which
alias the engine snapshot). -/
def Engine.mapSubsAtRef (e : Engine) (r : IntfRef) (f : SubIntf → SubIntf) : Engine :=
  match r with
  | .top k =>
    let g := fun (i : Intf) => { i with interfaces := i.interfaces.map f }
    { e with physicalInterfaces := modifyAt e.physicalInterfaces k g }
  | .vlan k v =>
    let gv := fun (vl : VlanIntf) => { vl with interfaces := vl.interfaces.map f }
    let g := fun (i : Intf) => { i with vlanInterfaces := modifyAt i.vlanInterfaces v gv }
    { e with physicalInterfaces := modifyAt e.physicalInterfaces k g }

/-- `Interface.sub_interfaces()` (interfaces.py:492) restricted to actual
sub-interface fragments: nested VLAN fragments first (in VLAN order), then
the top-level fragments.  The PhysicalVlanInterface entries it yields for
address-less VLANs carry no flags and are skipped by every caller's
isinstance check, so they are omitted here. -/
def Intf.allSubsList (i : Intf) : List SubIntf :=
  (i.vlanInterfaces.map VlanIntf.interfaces).flatten ++ i.interfaces

/-- All sub-interface fragments of the engine, in engine order. -/
def Engine.allSubs (e : Engine) : List SubIntf :=
  (e.physicalInterfaces.map Intf.allSubsList).flatten

/-- Apply a mutation to every sub-interface fragment of one top-level
interface (nested and top-level alike). -/
def Intf.mapSubs (i : Intf) (f : SubIntf → SubIntf) : Intf :=
  { i with
    interfaces := i.interfaces.map f,
    vlanInterfaces :=
      i.vlanInterfaces.map (fun v => { v with interfaces := v.interfaces.map f }) }

/-- Apply a mutation to every sub-interface fragment of the engine. -/
def Engine.mapAllSubs (e : Engine) (f : SubIntf → SubIntf) : Engine :=
  { e with physicalInterfaces := e.physicalInterfaces.map (fun i => i.mapSubs f) }

/-- `InterfaceModifier.find_mgmt_interface` (interfaces.py:2283): scan each
interface's `all_interfaces` (VLAN fragments first, then top-level
fragments); a VLAN whose nested fragment carries the flag yields the VLAN's
composite id, a top-level fragment carrying it yields the interface id. -/
def InterfaceModifier.find_mgmt_interface (e : Engine) (a : MgmtAttr) : Option String :=
  e.physicalInterfaces.findSome? (fun i =>
    match i.vlanInterfaces.findSome? (fun v =>
        if v.interfaces.any (fun s => getFlag s.flags a = some true) then
          some v.interface_id
        else none) with
    | some r => some r
    | none =>
      if i.interfaces.any (fun s => getFlag s.flags a = some true) then
        some i.interface_id
      else none)

/-- Per-fragment update of `set_unset` when no address is given
(interfaces.py:2324-2339): skip inline fragments; a fragment that defines
the attribute gets it set to true when its nicid equals `str(interface_id)`
and to false otherwise. -/
def setUnsetNoAddr (iidStr : String) (a : MgmtAttr) (s : SubIntf) : SubIntf :=
  if s.variant.isInline then s
  else
    match getFlag s.flags a with
    | none => s
    | some _ => if s.nicid = iidStr then s.setAttr a true else s.setAttr a false

/-- Per-fragment update of `set_unset` when an address was given: on the
target interface the attribute follows whether the fragment's network
matches the target network; everywhere else it is unset. -/
def setUnsetAddr (iidStr : String) (a : MgmtAttr) (targetNetwork : String) (s : SubIntf) : SubIntf :=
  if s.variant.isInline then s
  else
    match getFlag s.flags a with
    | none => s
    | some _ =>
      if s.nicid = iidStr then
        if s.network_value = some targetNetwork then s.setAttr a true
        else s.setAttr a false
      else s.setAttr a false

/-- `interface.all_interfaces.get(address=address)`: first fragment with
that address, searching the view's VLAN-nested fragments first and then its
top-level fragments. -/
def Engine.allIntfGetByAddress (e : Engine) (r : IntfRef) (addr : String) : Option SubIntf :=
  match e.atRef r with
  | some (.inl i) =>
    match i.vlanInterfaces.findSome? (fun v =>
        v.interfaces.find? (fun s => s.address = some addr)) with
    | some s => some s
    | none => i.interfaces.find? (fun s => s.address = some addr)
  | some (.inr v) => v.interfaces.find? (fun s => s.address = some addr)
  | none => none

/-- `InterfaceModifier.set_unset(interface_id, attribute, address)`
(interfaces.py:2303-2339).  The target is resolved first (raising
InterfaceNotFound when the id does not resolve); with an address, the
address must resolve to a fragment with a truthy network on the target or
InterfaceNotFound is raised; then every sub-interface fragment of the
engine is rewritten by the per-fragment update.  `interface_id = none`
skips resolution and, since no nicid equals "None", unsets the attribute
everywhere it is defined.  A given address together with
`interface_id = none` dereferences None in the source (`pyError`). -/
def InterfaceModifier.set_unset (e : Engine) (interface_id : Option String)
    (a : MgmtAttr) (address : Option String) : Except SmcErr Engine :=
  let refE : Except SmcErr (Option IntfRef) :=
    match interface_id with
    | some iid => (InterfaceModifier.get e iid).map some
    | none => .ok none
  match refE with
  | .error er => .error er
  | .ok refO =>
    let iidStr := elseStr interface_id
    match address with
    | none => .ok (e.mapAllSubs (setUnsetNoAddr iidStr a))
    | some addr =>
      match refO with
      | none => .error .pyError
      | some r =>
        match e.allIntfGetByAddress r addr with
        | none => .error .interfaceNotFound
        | some s =>
          match s.network_value with
          | none => .error .interfaceNotFound
          | some nw =>
            if nw = "" then .error .interfaceNotFound
            else .ok (e.mapAllSubs (setUnsetAddr iidStr a nw))

/-- `InterfaceOptions.set_backup_mgt(interface_id)` (interfaces.py:243):
delegates to `set_unset(interface_id, 'backup_mgt')`; passing `None` is
documented as removing the backup from the engine. -/
def InterfaceOptions.set_backup_mgt (e : Engine) (interface_id : Option String) :
    Except SmcErr Engine :=
  InterfaceModifier.set_unset e interface_id .backup_mgt none

/-- `InterfaceModifier.set_auth_request(interface_id, address)`
(interfaces.py:2341-2386): no-op on master/layer2/ips engine types; on a
clustered engine the target must expose a ClusterVirtual fragment or
InterfaceNotFound is raised; then the current auth_request holder (resolved
through `find_mgmt_interface`, so a missing holder resolves the id "None"
and raises) has the flag cleared and the target's CVI fragments (or, with
no CVI, the fragments defining auth_request) have it set, filtered by the
optional address. -/
def InterfaceModifier.set_auth_request (e : Engine) (interface_id : String)
    (address : Option String) : Except SmcErr Engine :=
  if strContains e.etype "master" || strContains e.etype "layer2" ||
      strContains e.etype "ips" then .ok e
  else
    match InterfaceModifier.get e interface_id with
    | .error er => .error er
    | .ok tref =>
      if strContains e.etype "cluster" &&
          !(e.subsAt tref).any (fun s => s.variant = .cluster_virtual_interface) then
        .error .interfaceNotFound
      else
        let currentId := elseStr (InterfaceModifier.find_mgmt_interface e .auth_request)
        match InterfaceModifier.get e currentId with
        | .error er => .error er
        | .ok cref =>
          let unset := fun (s : SubIntf) =>
            if getFlag s.flags .auth_request = some true then
              s.setAttr .auth_request false
            else s
          let e1 := e.mapSubsAtRef cref unset
          let subIf := e1.subsAt tref
          let want := fun (s : SubIntf) =>
            match address with
            | some addr => decide (s.address = some addr)
            | none => true
          if subIf.any (fun s => s.variant = .cluster_virtual_interface) then
            let setCvi := fun (s : SubIntf) =>
              if s.variant = .cluster_virtual_interface then
                if want s then s.setAttr .auth_request true else s
              else s
            .ok (e1.mapSubsAtRef tref setCvi)
          else
            let setAny := fun (s : SubIntf) =>
              if (getFlag s.flags .auth_request).isSome then
                if want s then s.setAttr .auth_request true else s
              else s
            .ok (e1.mapSubsAtRef tref setAny)

/-- Result of a `change_*_interface` call: the staged interface body, the
returned `change_made` boolean, whether one commit (`self.update()`) was
issued, and whether invalid routing entries were refreshed afterwards. -/
structure ChangeOutcome where
  intf : Intf
  change_made : Bool
  committed : Bool
  routes_refreshed : Bool
deriving DecidableEq

/-- Address-update loop of `change_single_interface` (interfaces.py:580):
every fragment whose address differs is rewritten to the new address and
network; returns the rewritten list, whether anything changed, and
`original_network` (the old network of the last rewritten fragment). -/
def foldAddr (address network_value : String) :
    List SubIntf → List SubIntf × Bool × Option String
  | [] => ([], false, none)
  | s :: r =>
    let rest := foldAddr address network_value r
    if s.address ≠ some address then
      let s1 := { s with address := some address, network_value := some network_value }
      (s1 :: rest.1, true, if rest.2.1 then rest.2.2 else s.network_value)
    else (s :: rest.1, rest.2.1, rest.2.2)

/-- Routing refresh condition after a commit (interfaces.py:589): the
recorded original network is truthy and differs from the new value. -/
def routesRefreshed (orig : Option String) (network_value : String) : Bool :=
  match orig with
  | some o => o ≠ "" && o ≠ network_value
  | none => false

/-- `Interface.change_single_interface(address, network_value, zone_ref,
vlan_id)` (interfaces.py:531-594): abort when VLANs exist but no vlan id
was given; resolve the VLAN fragment when a vlan id was given (raising
InterfaceNotFound when absent); stage a zone change when the resolved zone
differs from the interface's; rewrite fragments whose address differs; and
commit exactly once when anything was staged, refreshing routing when the
network prefix changed. -/
def Interface.change_single_interface (zh : String → String) (i : Intf)
    (address network_value : String) (zone_ref : Option String)
    (vlan_id : Option String) : Except SmcErr ChangeOutcome :=
  if i.has_vlan && !strTruthy vlan_id then .error .modificationAborted
  else if strTruthy vlan_id then
    match findVlanIdx i.vlanInterfaces (elseStr vlan_id) with
    | none => .error .interfaceNotFound
    | some k =>
      let v := (i.vlanInterfaces.get? k).getD default
      let zoneStage :=
        match zone_ref with
        | some z =>
          if strTruthy zone_ref && i.zone_ref ≠ some (zh z) then some (zh z) else none
        | none => none
      let v1 :=
        match zoneStage with
        | some z => { v with zone_ref := some z }
        | none => v
      let folded := foldAddr address network_value v1.interfaces
      let v2 := { v1 with interfaces := folded.1 }
      let change := zoneStage.isSome || folded.2.1
      let i2 := { i with vlanInterfaces := modifyAt i.vlanInterfaces k (fun _ => v2) }
      .ok ⟨i2, change, change, change && routesRefreshed folded.2.2 network_value⟩
  else
    let zoneStage :=
      match zone_ref with
      | some z =>
        if strTruthy zone_ref && i.zone_ref ≠ some (zh z) then some (zh z) else none
      | none => none
    let i1 :=
      match zoneStage with
      | some z => { i with zone_ref := some z }
      | none => i
    let folded := foldAddr address network_value i1.interfaces
    let i2 := { i1 with interfaces := folded.1 }
    let change := zoneStage.isSome || folded.2.1
    .ok ⟨i2, change, change, change && routesRefreshed folded.2.2 network_value⟩

/-- Node entry of the `nodes` argument to `change_cluster_interface`
(a dict whose keys are read with `.get`, hence all optional). -/
structure NodeSpec where
  address : Option String
  network_value : Option String
  nodeid : Option Nat
deriving DecidableEq

/-- `isinstance(x, NodeInterface)`.  `Modelled from the spec:` in
`smc/core/sub_interfaces.py` (not under src/) the SingleNode variant is the
single-engine specialisation of the Node variant, so both match. -/
def SubVariant.isNodeIntf : SubVariant → Bool
  | .node_interface => true
  | .single_node_interface => true
  | _ => false

/-- CVI/NDI update loop of `change_cluster_interface`
(interfaces.py:696-714): fold over the fragment list rewriting CVI
address/network against `cluster_virtual`/`network_value` and NDI
address+network against the matching `nodes` entry; `original_network` is
the pre-update network of the last fragment visited. -/
def foldCluster (cluster_virtual network_value : Option String)
    (nodes : List NodeSpec) :
    List SubIntf → List SubIntf × Bool × Option String
  | [] => ([], false, none)
  | s :: r =>
    let rest := foldCluster cluster_virtual network_value nodes r
    let orig := if r.isEmpty then s.network_value else rest.2.2
    if strTruthy cluster_virtual && s.variant = .cluster_virtual_interface then
      let s1 := if cluster_virtual ≠ s.address then
          { s with address := cluster_virtual } else s
      let ch1 := cluster_virtual ≠ s.address
      let s2 := if strTruthy network_value && network_value ≠ s1.network_value then
          { s1 with network_value := network_value } else s1
      let ch2 := strTruthy network_value && network_value ≠ s1.network_value
      (s2 :: rest.1, ch1 || ch2 || rest.2.1, orig)
    else if !nodes.isEmpty && s.variant.isNodeIntf then
      let upd := fun (acc : SubIntf × Bool) (n : NodeSpec) =>
        if n.nodeid = acc.1.nodeid then
          if acc.1.address ≠ n.address || acc.1.network_value ≠ n.network_value then
            ({ acc.1 with address := n.address, network_value := n.network_value }, true)
          else acc
        else acc
      let res := nodes.foldl upd (s, false)
      (res.1 :: rest.1, res.2 || rest.2.1, orig)
    else (s :: rest.1, rest.2.1, orig)

/-- `Interface.change_cluster_interface(...)` (interfaces.py:596-728):
abort when VLANs exist but no vlan id was given; resolve the VLAN fragment
when given; stage macaddress/comment/zone differences; when fragments exist
and a CVI address or nodes were supplied, rewrite them through the update
loop; commit exactly once when anything was staged; the routing refresh
compares the old network against the explicit new network or, when absent,
the first top-level fragment's network (crashing in the source when no
top-level fragment exists). -/
def Interface.change_cluster_interface (zh : String → String) (i : Intf)
    (cluster_virtual network_value : Option String) (nodes : List NodeSpec)
    (macaddress : Option String) (vlan_id : Option String)
    (zone_ref : Option String) (comment : Option String) :
    Except SmcErr ChangeOutcome :=
  if i.has_vlan && !strTruthy vlan_id then .error .modificationAborted
  else
    let vidx := if strTruthy vlan_id then
        match findVlanIdx i.vlanInterfaces (elseStr vlan_id) with
        | none => none
        | some k => some k
      else none
    if strTruthy vlan_id && vidx.isNone then .error .interfaceNotFound
    else
      let macCh := strTruthy macaddress && i.macaddress ≠ macaddress
      let i1 := if macCh then { i with macaddress := macaddress } else i
      let comCh := comment.isSome && comment ≠ i.comment
      let i2 := if comCh then { i1 with comment := comment } else i1
      let zoneStage :=
        match zone_ref with
        | some z =>
          if strTruthy zone_ref && i.zone_ref ≠ some (zh z) then some (zh z) else none
        | none => none
      let interfacesIn :=
        match vidx with
        | some k => ((i.vlanInterfaces.get? k).getD default).interfaces
        | none => i.interfaces
      let folded :=
        if !interfacesIn.isEmpty && (!nodes.isEmpty || strTruthy cluster_virtual) then
          foldCluster cluster_virtual network_value nodes interfacesIn
        else (interfacesIn, false, none)
      let change := macCh || comCh || zoneStage.isSome || folded.2.1
      let i3 :=
        match vidx with
        | some k =>
          let gv := fun (v : VlanIntf) =>
            let v1 := match zoneStage with
              | some z => { v with zone_ref := some z }
              | none => v
            { v1 with interfaces := folded.1 }
          { i2 with vlanInterfaces := modifyAt i2.vlanInterfaces k gv }
        | none =>
          let i2z := match zoneStage with
            | some z => { i2 with zone_ref := some z }
            | none => i2
          { i2z with interfaces := folded.1 }
      if change then
        match folded.2.2 with
        | some o =>
          if o ≠ "" then
            let newMask :=
              if strTruthy network_value then network_value
              else match i3.interfaces with
                | [] => none
                | s :: _ => s.network_value
            if strTruthy network_value || !i3.interfaces.isEmpty then
              .ok ⟨i3, true, true, newMask ≠ some o⟩
            else .error .pyError
          else .ok ⟨i3, true, true, false⟩
        | none => .ok ⟨i3, true, true, false⟩
      else .ok ⟨i3, false, false, false⟩

/-- Rewrite one nicid component to a new interface id, keeping a VLAN
suffix ('10.5' with new id '20' becomes '20.5'). -/
def rewriteHalf (newhalf old : String) : String :=
  if strContainsChar old '.' then newhalf ++ "." ++ ((strSplitOn old '.').getLastD "")
  else newhalf

/-- `Modelled from the spec:` `SubInterface.change_interface_id` of
`smc/core/sub_interfaces.py` (not under src/).  Per the section 8 scenario
it rewrites the fragment's nicid to use the new interface id, preserving a
VLAN suffix; for an inline pair the full new pair id is applied half by
half. -/
def SubIntf.change_interface_id (s : SubIntf) (newid : String) : SubIntf :=
  if s.variant.isInline then
    let pairs := (strSplitOn newid '-').zip (strSplitOn s.nicid '-')
    { s with nicid := strJoin "-" (pairs.map (fun p => rewriteHalf p.1 p.2)) }
  else { s with nicid := rewriteHalf newid s.nicid }

/-- `Interface.change_interface_id(interface_id)` (interfaces.py:776-823):
the leftmost '-'-component becomes the new top-level id; every VLAN
fragment is relabelled to "newid.vlan"; nested non-inline fragments get
their nicid rewritten with the single new id, nested inline fragments with
the full pair id; top-level non-inline fragments get `nicid = newid`
directly and inline ones the pair rewrite. -/
def Interface.change_interface_id (i : Intf) (interface_id : String) : Intf :=
  let if1 := (strSplitOn interface_id '-').headD ""
  let vlans := i.vlanInterfaces.map (fun v =>
    let relabeled := if1 ++ "." ++ ((strSplitOn v.interface_id '.').getLastD "")
    let subs := v.interfaces.map (fun s =>
      if s.variant.isInline then s.change_interface_id interface_id
      else s.change_interface_id if1)
    { v with interface_id := relabeled, interfaces := subs })
  let tops := i.interfaces.map (fun s =>
    if s.variant.isInline then s.change_interface_id interface_id
    else { s with nicid := if1 })
  { i with interface_id := if1, interfaces := tops, vlanInterfaces := vlans }

/-- `Modelled from the spec:` `SingleNodeInterface.create` of
`smc/core/sub_interfaces.py` (not under src/).  A SingleNode fragment
carries the address and network, a nicid defaulting to the owning
interface id, nodeid 1, and the flag keys of its variant
(auth_request/outgoing/primary_mgt/backup_mgt), present and false. -/
def SingleNodeInterface.create (interface_id : Option String)
    (address network_value : Option String) (nicid : Option String) : SubIntf :=
  ⟨.single_node_interface, address, network_value, some 1,
    (match nicid with | some n => n | none => elseStr interface_id),
    [(.auth_request, false), (.outgoing, false), (.primary_mgt, false),
     (.backup_mgt, false)]⟩

/-- `Modelled from the spec:` `NodeInterface.create` of
`smc/core/sub_interfaces.py` (not under src/).  A Node fragment carries
address, network, nodeid, a nicid defaulting to the owning interface id,
and the flag keys of its variant (primary_mgt/backup_mgt/heartbeats/
outgoing/auth_request), present and false. -/
def NodeInterface.create (interface_id : Option String)
    (address network_value : Option String) (nodeid : Nat)
    (nicid : Option String) : SubIntf :=
  ⟨.node_interface, address, network_value, some nodeid,
    (match nicid with | some n => n | none => elseStr interface_id),
    [(.primary_mgt, false), (.backup_mgt, false), (.primary_heartbeat, false),
     (.backup_heartbeat, false), (.outgoing, false), (.auth_request, false)]⟩

/-- `Modelled from the spec:` `ClusterVirtualInterface.create` of
`smc/core/sub_interfaces.py` (not under src/).  A ClusterVirtual fragment
carries the shared address and network, a nicid defaulting to the owning
interface id, and only the auth_request flag key (primary_mgt cannot be
placed on a CVI). -/
def ClusterVirtualInterface.create (interface_id : Option String)
    (address network_value : Option String) (nicid : Option String) : SubIntf :=
  ⟨.cluster_virtual_interface, address, network_value, none,
    (match nicid with | some n => n | none => elseStr interface_id),
    [(.auth_request, false)]⟩

/-- The in-progress interface body accumulated by `InterfaceBuilder`
(interfaces.py:2395): `vars(self)`, restricted to the attributes the
verified operations touch. -/
structure InterfaceBuilder where
  interface_id : Option String
  interfaces : List SubIntf
  vlanInterfaces : List VlanIntf
  zone_ref : Option String
  comment : Option String
  macaddress : Option String
deriving DecidableEq, Inhabited

/-- `InterfaceBuilder.data` (interfaces.py:2680): `vars(self)`, i.e. the
accumulated attribute dict is the JSON body itself. -/
def InterfaceBuilder.data (b : InterfaceBuilder) : InterfaceBuilder := b

/-- `InterfaceBuilder.add_sni_only(address, network_value, is_mgmt)`
(interfaces.py:2452): append one SingleNode fragment; with `is_mgmt` the
fragment is updated with auth_request, outgoing and primary_mgt true. -/
def InterfaceBuilder.add_sni_only (b : InterfaceBuilder)
    (address network_value : String) (is_mgmt : Bool) : InterfaceBuilder :=
  let sni := SingleNodeInterface.create b.interface_id (some address)
    (some network_value) none
  let sni := if is_mgmt then
      ((sni.setAttr .auth_request true).setAttr .outgoing true).setAttr .primary_mgt true
    else sni
  { b with interfaces := b.interfaces ++ [sni] }

/-- `InterfaceBuilder.add_ndi_only(address, network_value, nodeid, is_mgmt)`
(interfaces.py:2469): append one Node fragment; with `is_mgmt` the fragment
is updated with primary_mgt, outgoing and primary_heartbeat true. -/
def InterfaceBuilder.add_ndi_only (b : InterfaceBuilder)
    (address network_value : String) (nodeid : Nat) (is_mgmt : Bool) : InterfaceBuilder :=
  let ndi := NodeInterface.create b.interface_id (some address)
    (some network_value) nodeid none
  let ndi := if is_mgmt then
      ((ndi.setAttr .primary_mgt true).setAttr .outgoing true).setAttr .primary_heartbeat true
    else ndi
  { b with interfaces := b.interfaces ++ [ndi] }

/-- `InterfaceBuilder.add_cvi_only(address, network_value, is_mgmt)`
(interfaces.py:2437): append one ClusterVirtual fragment; with `is_mgmt`
the fragment is updated with auth_request true. -/
def InterfaceBuilder.add_cvi_only (b : InterfaceBuilder)
    (address network_value : String) (is_mgmt : Bool) : InterfaceBuilder :=
  let cvi := ClusterVirtualInterface.create b.interface_id (some address)
    (some network_value) none
  let cvi := if is_mgmt then cvi.setAttr .auth_request true else cvi
  { b with interfaces := b.interfaces ++ [cvi] }

/-- `PhysicalVlanInterface.create(interface_id, vlan_id, ...)`
(interfaces.py:1976): a fresh VLAN fragment with composite id
"interface.vlan", optionally seeded with one sub-interface fragment; the
zone reference goes through `zone_helper` (parameter `zh`). -/
def PhysicalVlanInterface.create (zh : Option String → Option String)
    (interface_id : Option String) (vlan_id : String)
    (virtual_mapping virtual_resource_name : Option String)
    (zone_ref : Option String) (interface : Option SubIntf)
    (comment : Option String) : VlanIntf :=
  ⟨elseStr interface_id ++ "." ++ vlan_id,
    (match interface with | some f => [f] | none => []),
    zh zone_ref, comment, virtual_mapping, virtual_resource_name⟩

/-- `InterfaceBuilder.add_vlan_only(vlan_id, ...)` (interfaces.py:2421):
append a fresh address-less VLAN fragment. -/
def InterfaceBuilder.add_vlan_only (zh : Option String → Option String)
    (b : InterfaceBuilder) (vlan_id : String)
    (virtual_mapping virtual_resource_name zone_ref comment : Option String) :
    InterfaceBuilder :=
  { b with vlanInterfaces := b.vlanInterfaces ++
      [PhysicalVlanInterface.create zh b.interface_id vlan_id virtual_mapping
        virtual_resource_name zone_ref none comment] }

/-- Append a fragment to the first VLAN whose composite id matches
(interfaces.py:2610 loop); reports whether a match was found. -/
def appendToVlan (vlan_str : String) (frag : SubIntf) :
    List VlanIntf → List VlanIntf × Bool
  | [] => ([], false)
  | v :: r =>
    if v.interface_id = vlan_str then
      ({ v with interfaces := v.interfaces ++ [frag] } :: r, true)
    else
      let rest := appendToVlan vlan_str frag r
      (v :: rest.1, rest.2)

/-- Sub-interface class passed to `add_ndi_to_vlan` (`cls` parameter):
dispatch to the matching modelled `create`. -/
def clsCreate (cls : SubVariant) (interface_id : Option String)
    (address network_value : Option String) (nodeid : Nat)
    (nicid : Option String) : SubIntf :=
  match cls with
  | .single_node_interface =>
    SingleNodeInterface.create interface_id address network_value nicid
  | _ => NodeInterface.create interface_id address network_value nodeid nicid

/-- `InterfaceBuilder.add_ndi_to_vlan(address, network_value, vlan_id,
nodeid, zone_ref, comment, cls)` (interfaces.py:2600-2641): build the
composite id "interface.vlan"; when a VLAN fragment with that id already
exists, append a fresh `cls` fragment (nicid = composite id) to it;
otherwise create the VLAN fragment seeded with that fragment. -/
def InterfaceBuilder.add_ndi_to_vlan (zh : Option String → Option String)
    (b : InterfaceBuilder) (address network_value : Option String)
    (vlan_id : String) (nodeid : Nat) (zone_ref comment : Option String)
    (cls : SubVariant) : InterfaceBuilder :=
  let vlan_str := elseStr b.interface_id ++ "." ++ vlan_id
  let frag := clsCreate cls b.interface_id address network_value nodeid (some vlan_str)
  let res := appendToVlan vlan_str frag b.vlanInterfaces
  if res.2 then { b with vlanInterfaces := res.1 }
  else
    { b with vlanInterfaces := b.vlanInterfaces ++
        [PhysicalVlanInterface.create zh b.interface_id vlan_id none none
          zone_ref (some frag) comment] }

/-- `InterfaceBuilder.add_sni_to_vlan(...)` (interfaces.py:2589): delegate
to `add_ndi_to_vlan` with the SingleNode class. -/
def InterfaceBuilder.add_sni_to_vlan (zh : Option String → Option String)
    (b : InterfaceBuilder) (address network_value : Option String)
    (vlan_id : String) (nodeid : Nat) (zone_ref comment : Option String) :
    InterfaceBuilder :=
  b.add_ndi_to_vlan zh address network_value vlan_id nodeid zone_ref comment
    .single_node_interface

/-- `InterfaceBuilder.remove_vlan(vlan_id)` (interfaces.py:2667): keep only
the VLAN fragments whose composite id differs from "interface.vlan"; a
missing id filters nothing. -/
def InterfaceBuilder.remove_vlan (b : InterfaceBuilder) (vlan_id : String) :
    InterfaceBuilder :=
  let vlan_str := elseStr b.interface_id ++ "." ++ vlan_id
  { b with vlanInterfaces := b.vlanInterfaces.filter (fun v => v.interface_id ≠ vlan_str) }

/-- `InterfaceBuilder.getBuilder(instance, interface_id)`
(interfaces.py:2683): resolve the id through `InterfaceModifier`; when
found, seed the builder from the interface's current body (supporting
update-in-place), otherwise start a fresh builder carrying the requested id
(supporting create).  Returns the builder and the resolved view, if any. -/
def InterfaceBuilder.getBuilder (e : Engine) (interface_id : String) :
    InterfaceBuilder × Option IntfRef :=
  match InterfaceModifier.get e interface_id with
  | .error _ => (⟨some interface_id, [], [], none, none, none⟩, none)
  | .ok r =>
    match e.atRef r with
    | some (.inl i) =>
      (⟨some i.interface_id, i.interfaces, i.vlanInterfaces, i.zone_ref,
        i.comment, i.macaddress⟩, some r)
    | some (.inr v) =>
      (⟨some v.interface_id, v.interfaces, [], v.zone_ref, v.comment, none⟩, some r)
    | none => (⟨some interface_id, [], [], none, none, none⟩, none)

/-- `PhysicalInterface.add_layer3_vlan_interface(interface_id, vlan_id,
address, network_value, ...)` (interfaces.py:1410-1454): seed a builder
from the existing interface (or fresh); with no address add an address-less
VLAN; with an address add it into the VLAN through the SingleNode class on
a single_fw engine and the Node class otherwise.  The returned builder body
is what `dispatch` submits. -/
def PhysicalInterface.add_layer3_vlan_interface (zh : Option String → Option String)
    (e : Engine) (interface_id vlan_id : String)
    (address network_value : Option String)
    (virtual_mapping virtual_resource_name zone_ref comment : Option String) :
    InterfaceBuilder :=
  let b := (InterfaceBuilder.getBuilder e interface_id).1
  match address with
  | none =>
    b.add_vlan_only zh vlan_id virtual_mapping virtual_resource_name zone_ref comment
  | some a =>
    if e.etype = "single_fw" then
      b.add_sni_to_vlan zh (some a) network_value vlan_id 1 zone_ref comment
    else
      b.add_ndi_to_vlan zh (some a) network_value vlan_id 1 zone_ref comment
        .node_interface

/-- `PhysicalInterface.remove_vlan(vlan_id)` (interfaces.py:1712-1747):
`get_vlan` is called first and raises InterfaceNotFound when the VLAN does
not exist; only then is a builder seeded from the engine's copy of this
interface, the VLAN filtered out, and the body committed.  `i` is the
engine's interface on which the method is invoked. -/
def PhysicalInterface.remove_vlan (e : Engine) (i : Intf) (vlan_id : String) :
    Except SmcErr Intf :=
  match i.get_vlan vlan_id with
  | .error er => .error er
  | .ok _ =>
    let b := ((InterfaceBuilder.getBuilder e i.interface_id).1).remove_vlan vlan_id
    .ok ⟨elseStr b.interface_id, b.interfaces, b.vlanInterfaces, b.zone_ref,
      b.comment, b.macaddress⟩

/-- The claim's statement of when `InterfaceModifier.get(interface_id)` has
a match (written from the claim's words, for comparison with the source
embedding): a top-level interface id, a composite VLAN id "X.Y" with X
existing and carrying VLAN Y, or either half of an existing inline pair
id. -/
def interfaceResolvesPerClaim (e : Engine) (iid : String) : Bool :=
  e.physicalInterfaces.any (fun i => i.interface_id = iid) ||
  (strContainsChar iid '.' &&
    e.physicalInterfaces.any (fun i =>
      i.interface_id = (strSplitOn iid '.').headD "" &&
      i.vlanInterfaces.any (fun v => v.vlan_id = (strSplitOn iid '.').getLastD ""))) ||
  e.physicalInterfaces.any (fun i =>
    i.interfaces.any (fun s =>
      s.variant.isInline && (strSplitOn s.nicid '-').any (fun h => h = iid)))

/-- The amended match condition: as the claim states it, plus the full
inline pair id itself (the source also resolves `get("X-Y")` when an inline
pair "X-Y" exists). -/
def interfaceResolvesAmended (e : Engine) (iid : String) : Bool :=
  e.physicalInterfaces.any (fun i => i.interface_id = iid) ||
  (strContainsChar iid '.' &&
    e.physicalInterfaces.any (fun i =>
      i.interface_id = (strSplitOn iid '.').headD "" &&
      i.vlanInterfaces.any (fun v => v.vlan_id = (strSplitOn iid '.').getLastD ""))) ||
  e.physicalInterfaces.any (fun i =>
    i.interfaces.any (fun s =>
      s.variant.isInline &&
        (iid = s.nicid || (strSplitOn s.nicid '-').any (fun h => h = iid))))

/-- Number of sub-interface fragments of the engine carrying the flag as
true. -/
def Engine.flaggedCount (e : Engine) (a : MgmtAttr) : Nat :=
  e.allSubs.countP (fun s => getFlag s.flags a = some true)

/-- Unwrap an engine-valued result, defaulting on error (used only to state
closed counterexamples about concrete inputs). -/
def runEngine (d : Engine) : Except SmcErr Engine → Engine
  | .ok e => e
  | .error _ => d

/-! ### Shared lemmas -/

theorem getFlag_setFlag_self (fl : List (MgmtAttr × Bool)) (a : MgmtAttr) (v : Bool) :
    getFlag (setFlag fl a v) a = some v := by
  induction fl with
  | nil => simp [getFlag, setFlag]
  | cons p r ih =>
    by_cases h : p.1 = a
    · simp [setFlag, getFlag, h]
    · simp [setFlag, getFlag, h, ih]

theorem allSubsList_mapSubs (i : Intf) (f : SubIntf → SubIntf) :
    (i.mapSubs f).allSubsList = i.allSubsList.map f := by
  simp only [Intf.mapSubs, Intf.allSubsList, List.map_append, List.map_flatten,
    List.map_map]
  rfl

theorem allSubs_mapAllSubs (e : Engine) (f : SubIntf → SubIntf) :
    (e.mapAllSubs f).allSubs = e.allSubs.map f := by
  simp only [Engine.mapAllSubs, Engine.allSubs, List.map_map, List.map_flatten]
  congr 1
  simp [Function.comp, allSubsList_mapSubs]

theorem foldAddr_id (a n : String) (l : List SubIntf)
    (h : ∀ s ∈ l, s.address = some a) :
    foldAddr a n l = (l, false, none) := by
  induction l with
  | nil => rfl
  | cons s r ih =>
    have hs : s.address = some a := h s (by simp)
    have hr : ∀ x ∈ r, x.address = some a := fun x hx => h x (by simp [hx])
    simp [foldAddr, ih hr, hs]

/-! ### C3 -/

/-- C3: on an interface without VLANs whose sub-interfaces all already
carry the given address and network value, `change_single_interface` with
no zone_ref and no vlan_id stages no change (the body is returned
untouched), issues no commit, and returns false. -/
theorem change_single_identity_is_noop (zh : String → String) (i : Intf)
    (address network_value : String)
    (hvl : i.vlanInterfaces = [])
    (haddr : ∀ s ∈ i.interfaces,
      s.address = some address ∧ s.network_value = some network_value) :
    Interface.change_single_interface zh i address network_value none none =
      .ok ⟨i, false, false, false⟩ := by
  obtain ⟨iid, ints, vls, z, c, m⟩ := i
  have hv : vls = [] := hvl
  subst hv
  have hfold : foldAddr address network_value ints = (ints, false, none) :=
    foldAddr_id _ _ _ (fun s hs => (haddr s hs).1)
  simp [Interface.change_single_interface, Intf.has_vlan, strTruthy, hfold,
    routesRefreshed]

/-- Concrete single-address interface used to witness C3. -/
def intfC3 : Intf :=
  ⟨"0",
    [⟨.single_node_interface, some "1.1.1.1", some "1.1.1.0/24", some 1, "0",
      [(.auth_request, false), (.outgoing, false), (.primary_mgt, false),
       (.backup_mgt, false)]⟩],
    [], none, none, none⟩

theorem change_single_identity_is_noop_witness :
    Interface.change_single_interface (fun z => z) intfC3 "1.1.1.1" "1.1.1.0/24"
      none none = .ok ⟨intfC3, false, false, false⟩ :=
  change_single_identity_is_noop (fun z => z) intfC3 "1.1.1.1" "1.1.1.0/24"
    rfl (by decide)

/-! ### C4 -/

/-- C4: when the interface has at least one VLAN configured and the vlan_id
argument is omitted, both `change_single_interface` and
`change_cluster_interface` fail with ModificationAborted; the error result
carries no staged body, so the failure precedes any staged change or
commit. -/
theorem vlan_required_aborts (zh : String → String) (i : Intf)
    (address network_value : String) (zone_ref : Option String)
    (cluster_virtual network_value2 : Option String) (nodes : List NodeSpec)
    (macaddress comment : Option String)
    (h : i.has_vlan = true) :
    Interface.change_single_interface zh i address network_value zone_ref none =
      .error .modificationAborted ∧
    Interface.change_cluster_interface zh i cluster_virtual network_value2 nodes
      macaddress none zone_ref comment = .error .modificationAborted := by
  constructor
  · simp [Interface.change_single_interface, h, strTruthy]
  · simp [Interface.change_cluster_interface, h, strTruthy]

/-- Concrete interface with one VLAN used to witness C4. -/
def intfC4 : Intf :=
  ⟨"5", [],
    [⟨"5.10", [], none, none, none, none⟩],
    none, none, none⟩

theorem vlan_required_aborts_witness :
    Interface.change_single_interface (fun z => z) intfC4 "1.1.1.1" "1.1.1.0/24"
      none none = .error .modificationAborted ∧
    Interface.change_cluster_interface (fun z => z) intfC4 none none [] none
      none none none = .error .modificationAborted :=
  vlan_required_aborts (fun z => z) intfC4 "1.1.1.1" "1.1.1.0/24" none none none
    [] none none (by decide)

/-! ### C8 -/

/-- C8: `add_sni_only`, `add_ndi_only` and `add_cvi_only` each append
exactly one fragment of their variant's discriminator to the builder's
interfaces list (read back through `builder.data`), with fields equal to
the inputs; with `is_mgmt` set, the SingleNode fragment carries
auth_request, outgoing and primary_mgt true, and the Node fragment carries
primary_mgt, outgoing and primary_heartbeat true (false otherwise). -/
theorem builder_add_fragment_roundtrip (b : InterfaceBuilder) (a n : String)
    (m : Bool) (nodeid : Nat) :
    (∃ f, (b.add_sni_only a n m).data.interfaces = b.interfaces ++ [f] ∧
      (b.add_sni_only a n m).data.vlanInterfaces = b.vlanInterfaces ∧
      f.variant.typeof = "single_node_interface" ∧ f.address = some a ∧
      f.network_value = some n ∧
      getFlag f.flags .auth_request = some m ∧
      getFlag f.flags .outgoing = some m ∧
      getFlag f.flags .primary_mgt = some m) ∧
    (∃ f, (b.add_ndi_only a n nodeid m).data.interfaces = b.interfaces ++ [f] ∧
      (b.add_ndi_only a n nodeid m).data.vlanInterfaces = b.vlanInterfaces ∧
      f.variant.typeof = "node_interface" ∧ f.address = some a ∧
      f.network_value = some n ∧ f.nodeid = some nodeid ∧
      getFlag f.flags .primary_mgt = some m ∧
      getFlag f.flags .outgoing = some m ∧
      getFlag f.flags .primary_heartbeat = some m) ∧
    (∃ f, (b.add_cvi_only a n m).data.interfaces = b.interfaces ++ [f] ∧
      (b.add_cvi_only a n m).data.vlanInterfaces = b.vlanInterfaces ∧
      f.variant.typeof = "cluster_virtual_interface" ∧ f.address = some a ∧
      f.network_value = some n ∧
      getFlag f.flags .auth_request = some m) := by
  refine ⟨⟨_, rfl, rfl, ?_, ?_, ?_, ?_, ?_, ?_⟩,
    ⟨_, rfl, rfl, ?_, ?_, ?_, ?_, ?_, ?_, ?_⟩,
    ⟨_, rfl, rfl, ?_, ?_, ?_, ?_⟩⟩ <;> cases m <;> rfl

/-! ### C9 -/

/-- C9: changing the interface id from "10" to "20" on an interface whose
only VLAN has composite id "10.5" and whose nested sub-interfaces are
non-inline with nicid "10.5" sets the top-level id to "20", relabels the
VLAN to "20.5", and rewrites every nested nicid to "20.5". -/
theorem change_interface_id_relabels (i : Intf) (v : VlanIntf)
    (hid : i.interface_id = "10")
    (hv : i.vlanInterfaces = [v])
    (hvid : v.interface_id = "10.5")
    (htop : i.interfaces = [])
    (hsubs : ∀ s ∈ v.interfaces, s.variant.isInline = false ∧ s.nicid = "10.5") :
    (Interface.change_interface_id i "20").interface_id = "20" ∧
    (Interface.change_interface_id i "20").vlanInterfaces.map VlanIntf.interface_id =
      ["20.5"] ∧
    ∀ s ∈ ((Interface.change_interface_id i "20").vlanInterfaces.map
        VlanIntf.interfaces).flatten, s.nicid = "20.5" := by
  refine ⟨?_, ?_, ?_⟩
  · simp [Interface.change_interface_id]
    decide
  · simp [Interface.change_interface_id, hv, hvid]
    decide
  · intro s hs
    simp [Interface.change_interface_id, hv] at hs
    obtain ⟨s0, hs0, rfl⟩ := hs
    obtain ⟨h1, h2⟩ := hsubs s0 hs0
    simp [SubIntf.change_interface_id, h1, h2, rewriteHalf]
    decide

/-- Concrete interface used to witness C9. -/
def intfC9 : Intf :=
  ⟨"10", [],
    [⟨"10.5",
      [⟨.single_node_interface, some "7.7.7.7", some "7.7.7.0/24", some 1, "10.5",
        [(.primary_mgt, false)]⟩],
      none, none, none, none⟩],
    none, none, none⟩

theorem change_interface_id_relabels_witness :
    (Interface.change_interface_id intfC9 "20").interface_id = "20" ∧
    (Interface.change_interface_id intfC9 "20").vlanInterfaces.map VlanIntf.interface_id =
      ["20.5"] ∧
    ∀ s ∈ ((Interface.change_interface_id intfC9 "20").vlanInterfaces.map
        VlanIntf.interfaces).flatten, s.nicid = "20.5" :=
  change_interface_id_relabels intfC9
    ⟨"10.5",
      [⟨.single_node_interface, some "7.7.7.7", some "7.7.7.0/24", some 1, "10.5",
        [(.primary_mgt, false)]⟩],
      none, none, none, none⟩
    rfl rfl rfl rfl (by decide)

/-! ### C7 -/

/-- C7: `add_layer3_vlan_interface(interface_id=3, vlan_id=100,
address="1.1.1.1", network_value="1.1.1.0/24")` on a fresh interface (the
seeded builder carries id "3" and no VLAN fragments) produces a body with
exactly one VLAN fragment, of composite id "3.100", containing exactly one
sub-interface fragment, with address "1.1.1.1" (on every engine type: the
SingleNode and Node paths stamp the same address). -/
theorem add_layer3_vlan_fresh (zh : Option String → Option String) (e : Engine)
    (hb : (InterfaceBuilder.getBuilder e "3").1.interface_id = some "3")
    (hv : (InterfaceBuilder.getBuilder e "3").1.vlanInterfaces = []) :
    (PhysicalInterface.add_layer3_vlan_interface zh e "3" "100" (some "1.1.1.1")
        (some "1.1.1.0/24") none none none none).vlanInterfaces.map
        (fun v => (v.interface_id, v.interfaces.map SubIntf.address)) =
      [("3.100", [some "1.1.1.1"])] := by
  by_cases he : e.etype = "single_fw" <;>
    simp [PhysicalInterface.add_layer3_vlan_interface, he,
      InterfaceBuilder.add_sni_to_vlan, InterfaceBuilder.add_ndi_to_vlan, hb, hv,
      appendToVlan, PhysicalVlanInterface.create, clsCreate,
      SingleNodeInterface.create, NodeInterface.create, elseStr]

/-- Empty single-fw engine used to witness C7 (the builder starts fresh). -/
def engineC7 : Engine := ⟨"single_fw", []⟩

theorem add_layer3_vlan_fresh_witness :
    (PhysicalInterface.add_layer3_vlan_interface (fun z => z) engineC7 "3" "100"
        (some "1.1.1.1") (some "1.1.1.0/24") none none none none).vlanInterfaces.map
        (fun v => (v.interface_id, v.interfaces.map SubIntf.address)) =
      [("3.100", [some "1.1.1.1"])] :=
  add_layer3_vlan_fresh (fun z => z) engineC7 rfl rfl

/-! ### C2 -/

/-- Interface 12 carrying exactly one VLAN, 12.14, used to exercise
`PhysicalInterface.remove_vlan`. -/
def intfC2 : Intf :=
  ⟨"12", [],
    [⟨"12.14",
      [⟨.single_node_interface, some "14.14.14.1", some "14.14.14.0/24", some 1,
        "12.14", [(.primary_mgt, false)]⟩],
      none, none, none, none⟩],
    none, none, none⟩

/-- The engine holding `intfC2`. -/
def engineC2 : Engine := ⟨"single_fw", [intfC2]⟩

/-- Interface 12 after the first successful `remove_vlan(14)`. -/
def intfC2r : Intf := ⟨"12", [], [], none, none, none⟩

/-- The engine after the first removal was committed. -/
def engineC2r : Engine := ⟨"single_fw", [intfC2r]⟩

/-- C2: the first `remove_vlan(14)` succeeds and leaves no VLANs, and
`get_vlan(14)` afterwards fails with InterfaceNotFound — but the second
`remove_vlan(14)` is NOT a no-op: the method's `get_vlan` precheck
(interfaces.py:1739) raises InterfaceNotFound, contradicting its own
docstring ("This is a no-op if the VLAN specified does not exist") and the
claim.  Only the builder-level `InterfaceBuilder.remove_vlan` filter is a
no-op when the id is absent. -/
theorem remove_vlan_twice_raises :
    PhysicalInterface.remove_vlan engineC2 intfC2 "14" = .ok intfC2r ∧
    Intf.get_vlan intfC2r "14" = .error .interfaceNotFound ∧
    PhysicalInterface.remove_vlan engineC2r intfC2r "14" = .error .interfaceNotFound ∧
    (((InterfaceBuilder.getBuilder engineC2r "12").1.remove_vlan "14").remove_vlan "14" =
      (InterfaceBuilder.getBuilder engineC2r "12").1.remove_vlan "14") := by
  refine ⟨rfl, rfl, rfl, rfl⟩

/-! ### C6 -/

/-- C6: on a clustered engine, `set_auth_request` fails with
InterfaceNotFound when the resolved target interface exposes no
ClusterVirtual fragment; on a master/layer2/ips engine type it returns the
engine unchanged without touching any sub-interface. -/
theorem set_auth_request_guards (e1 e2 : Engine) (iid1 iid2 : String)
    (addr1 addr2 : Option String) (r : IntfRef)
    (h2 : strContains e2.etype "master" = true ∨ strContains e2.etype "layer2" = true ∨
      strContains e2.etype "ips" = true)
    (hcl : strContains e1.etype "cluster" = true)
    (hm : strContains e1.etype "master" = false)
    (hl : strContains e1.etype "layer2" = false)
    (hi : strContains e1.etype "ips" = false)
    (hr : InterfaceModifier.get e1 iid1 = .ok r)
    (hnc : (e1.subsAt r).any (fun s => s.variant = .cluster_virtual_interface) = false) :
    InterfaceModifier.set_auth_request e2 iid2 addr2 = .ok e2 ∧
    InterfaceModifier.set_auth_request e1 iid1 addr1 = .error .interfaceNotFound := by
  constructor
  · rcases h2 with h | h | h <;> simp [InterfaceModifier.set_auth_request, h]
  · simp [InterfaceModifier.set_auth_request, hm, hl, hi, hr, hcl, hnc]

/-- Clustered engine whose interface 0 has only node fragments (no CVI). -/
def engineC6 : Engine :=
  ⟨"fw_cluster",
    [⟨"0",
      [⟨.node_interface, some "1.1.1.2", some "1.1.1.0/24", some 1, "0",
        [(.primary_mgt, false), (.auth_request, false)]⟩],
      [], none, none, none⟩]⟩

/-- Master engine used for the no-op half of C6. -/
def engineC6m : Engine := ⟨"master_engine", []⟩

theorem set_auth_request_guards_witness :
    InterfaceModifier.set_auth_request engineC6m "0" none = .ok engineC6m ∧
    InterfaceModifier.set_auth_request engineC6 "0" none = .error .interfaceNotFound :=
  set_auth_request_guards engineC6 engineC6m "0" "0" none none (.top 0)
    (by decide) (by decide) (by decide) (by decide) (by decide) rfl (by decide)

/-! ### C10 and C1 -/

theorem countP_map_eq {α β : Type} (f : α → β) (p : β → Bool) (l : List α) :
    (l.map f).countP p = l.countP (fun x => p (f x)) := by
  induction l with
  | nil => rfl
  | cons x t ih => simp [List.countP_cons, ih]

theorem countP_congr_mem {α : Type} (p q : α → Bool) (l : List α)
    (h : ∀ x ∈ l, p x = q x) : l.countP p = l.countP q := by
  induction l with
  | nil => rfl
  | cons x t ih =>
    have hx : p x = q x := h x (by simp)
    have ht : ∀ y ∈ t, p y = q y := fun y hy => h y (by simp [hy])
    simp [List.countP_cons, hx, ih ht]

/-- The flag key of a fragment after the address-less `set_unset` pass:
untouched when absent or on an inline fragment, otherwise true exactly when
the nicid matches the stringified target id. -/
theorem setUnsetNoAddr_flag (iid : String) (a : MgmtAttr) (s : SubIntf)
    (hinl : s.variant.isInline = true → getFlag s.flags a = none) :
    getFlag (setUnsetNoAddr iid a s).flags a =
      (getFlag s.flags a).map (fun _ => decide (s.nicid = iid)) := by
  by_cases hv : s.variant.isInline
  · simp [setUnsetNoAddr, hv, hinl hv]
  · cases hf : getFlag s.flags a with
    | none => simp [setUnsetNoAddr, hv, hf]
    | some w =>
      by_cases hn : s.nicid = iid <;>
        simp [setUnsetNoAddr, hv, hf, hn, SubIntf.setAttr, getFlag_setFlag_self]

/-- C10: `set_unset(None, attribute)` (the path taken by
`InterfaceOptions.set_backup_mgt(None)`) sets the attribute to false on
every sub-interface that currently defines it, so that afterwards no
sub-interface of the engine carries the flag.  Hypotheses: no real nicid is
the literal string "None" (which `str(None)` would match) and inline
fragments do not define management flags. -/
theorem set_unset_none_unsets_everywhere (e : Engine) (a : MgmtAttr)
    (hinl : ∀ s ∈ e.allSubs, s.variant.isInline = true → getFlag s.flags a = none)
    (hn : ∀ s ∈ e.allSubs, s.nicid ≠ "None") :
    ∃ e2, InterfaceOptions.set_backup_mgt e none = .ok (e.mapAllSubs (setUnsetNoAddr "None" .backup_mgt)) ∧
      InterfaceModifier.set_unset e none a none = .ok e2 ∧
      e2.allSubs = e.allSubs.map
        (fun s => if (getFlag s.flags a).isSome then s.setAttr a false else s) ∧
      ∀ s ∈ e2.allSubs, getFlag s.flags a ≠ some true := by
  refine ⟨e.mapAllSubs (setUnsetNoAddr "None" a), rfl, rfl, ?_, ?_⟩
  · rw [allSubs_mapAllSubs]
    refine List.map_congr_left ?_
    intro s hs
    by_cases hv : s.variant.isInline
    · simp [setUnsetNoAddr, hv, hinl s hs hv]
    · cases hf : getFlag s.flags a with
      | none => simp [setUnsetNoAddr, hv, hf]
      | some w => simp [setUnsetNoAddr, hv, hf, hn s hs]
  · intro s hs
    rw [allSubs_mapAllSubs] at hs
    obtain ⟨s0, hs0, rfl⟩ := List.mem_map.mp hs
    rw [setUnsetNoAddr_flag "None" a s0 (hinl s0 hs0)]
    cases hf : getFlag s0.flags a with
    | none => simp
    | some w => simp [hn s0 hs0]

/-- Engine with backup_mgt set on one fragment and defined on another,
used to witness C10. -/
def engineC10 : Engine :=
  ⟨"single_fw",
    [⟨"0",
      [⟨.single_node_interface, some "1.1.1.1", some "1.1.1.0/24", some 1, "0",
        [(.backup_mgt, true), (.primary_mgt, true)]⟩],
      [], none, none, none⟩,
     ⟨"1",
      [⟨.single_node_interface, some "2.2.2.1", some "2.2.2.0/24", some 1, "1",
        [(.backup_mgt, false), (.primary_mgt, false)]⟩],
      [], none, none, none⟩]⟩

theorem set_unset_none_unsets_everywhere_witness :
    ∃ e2, InterfaceOptions.set_backup_mgt engineC10 none =
        .ok (engineC10.mapAllSubs (setUnsetNoAddr "None" .backup_mgt)) ∧
      InterfaceModifier.set_unset engineC10 none .backup_mgt none = .ok e2 ∧
      e2.allSubs = engineC10.allSubs.map
        (fun s => if (getFlag s.flags .backup_mgt).isSome then s.setAttr .backup_mgt false else s) ∧
      ∀ s ∈ e2.allSubs, getFlag s.flags .backup_mgt ≠ some true :=
  set_unset_none_unsets_everywhere engineC10 .backup_mgt (by decide) (by decide)

/-- Engine whose interface 1 carries two addressed fragments, both defining
primary_mgt, plus a second interface holding the flag: the C1
counterexample input. -/
def engineC1x : Engine :=
  ⟨"single_fw",
    [⟨"1",
      [⟨.single_node_interface, some "1.1.1.1", some "1.1.1.0/24", some 1, "1",
        [(.primary_mgt, false), (.outgoing, false), (.auth_request, false)]⟩,
       ⟨.single_node_interface, some "1.1.1.2", some "1.1.1.0/24", some 1, "1",
        [(.primary_mgt, false), (.outgoing, false), (.auth_request, false)]⟩],
      [], none, none, none⟩,
     ⟨"2",
      [⟨.single_node_interface, some "2.2.2.1", some "2.2.2.0/24", some 1, "2",
        [(.primary_mgt, true), (.outgoing, true), (.auth_request, true)]⟩],
      [], none, none, none⟩]⟩

/-- C1 counterexample: interface id "1" resolves, yet after
`set_unset("1", 'primary_mgt')` with no address TWO sub-interfaces carry
primary_mgt true (both addressed fragments of interface 1), not exactly
one: the claim fails on multi-address interfaces. -/
theorem set_unset_not_exactly_one :
    (InterfaceModifier.get engineC1x "1").isOk = true ∧
    (runEngine engineC1x
      (InterfaceModifier.set_unset engineC1x (some "1") .primary_mgt none)).flaggedCount
        .primary_mgt = 2 := by
  constructor
  · rfl
  · rfl

/-- C1 (amended): after `set_unset(i, attr)` with no address, a fragment
carries the flag true exactly when it defines the flag and its nicid equals
the target id; hence exactly one fragment carries it system-wide precisely
when exactly one fragment of the engine defines the flag with that nicid
(e.g. a single-address target interface), regardless of how many carried it
before.  Inline fragments are assumed (as in real data) not to define
management flags. -/
theorem set_unset_flag_characterization (e : Engine) (iid : String) (a : MgmtAttr)
    (hok : (InterfaceModifier.get e iid).isOk = true)
    (hinl : ∀ s ∈ e.allSubs, s.variant.isInline = true → getFlag s.flags a = none)
    (hone : e.allSubs.countP
      (fun s => (getFlag s.flags a).isSome && decide (s.nicid = iid)) = 1) :
    ∃ e2, InterfaceModifier.set_unset e (some iid) a none = .ok e2 ∧
      (∀ s ∈ e.allSubs, getFlag (setUnsetNoAddr iid a s).flags a = some true ↔
        ((getFlag s.flags a).isSome = true ∧ s.nicid = iid)) ∧
      e2.flaggedCount a = 1 := by
  cases hget : InterfaceModifier.get e iid with
  | error er => rw [hget] at hok; simp [Except.isOk, Except.toBool] at hok
  | ok r =>
    refine ⟨e.mapAllSubs (setUnsetNoAddr iid a), ?_, ?_, ?_⟩
    · simp [InterfaceModifier.set_unset, hget, elseStr, Except.map]
    · intro s hs
      rw [setUnsetNoAddr_flag iid a s (hinl s hs)]
      cases hf : getFlag s.flags a with
      | none => simp
      | some w => by_cases hn : s.nicid = iid <;> simp [hn]
    · show (e.mapAllSubs (setUnsetNoAddr iid a)).allSubs.countP _ = 1
      rw [allSubs_mapAllSubs, countP_map_eq]
      rw [countP_congr_mem _ _ _ ?_]
      · exact hone
      · intro s hs
        rw [setUnsetNoAddr_flag iid a s (hinl s hs)]
        cases hf : getFlag s.flags a with
        | none => simp
        | some w => by_cases hn : s.nicid = iid <;> simp [hn]

/-- Engine where exactly one fragment defines primary_mgt with nicid "1",
while another interface currently holds the flag: the amended-C1 witness. -/
def engineC1w : Engine :=
  ⟨"single_fw",
    [⟨"1",
      [⟨.single_node_interface, some "1.1.1.1", some "1.1.1.0/24", some 1, "1",
        [(.primary_mgt, false), (.outgoing, false), (.auth_request, false)]⟩],
      [], none, none, none⟩,
     ⟨"2",
      [⟨.single_node_interface, some "2.2.2.1", some "2.2.2.0/24", some 1, "2",
        [(.primary_mgt, true), (.outgoing, true), (.auth_request, true)]⟩],
      [], none, none, none⟩]⟩

theorem set_unset_flag_characterization_witness :
    ∃ e2, InterfaceModifier.set_unset engineC1w (some "1") .primary_mgt none = .ok e2 ∧
      (∀ s ∈ engineC1w.allSubs,
        getFlag (setUnsetNoAddr "1" .primary_mgt s).flags .primary_mgt = some true ↔
        ((getFlag s.flags .primary_mgt).isSome = true ∧ s.nicid = "1")) ∧
      e2.flaggedCount .primary_mgt = 1 :=
  set_unset_flag_characterization engineC1w "1" .primary_mgt (by decide) (by decide)
    (by decide)

/-! ### C5 -/

theorem findVlanIdx_isSome_iff (l : List VlanIntf) (vid : String) :
    (findVlanIdx l vid).isSome = true ↔ ∃ v ∈ l, v.vlan_id = vid := by
  induction l with
  | nil => simp [findVlanIdx]
  | cons v r ih => by_cases h : v.vlan_id = vid <;> simp [findVlanIdx, h, ih]

/-- The amended claim's match condition, in propositional form over a list
of interfaces (the three disjuncts of `interfaceResolvesAmended`). -/
def MatchSpec (iid : String) (l : List Intf) : Prop :=
  (∃ i ∈ l, i.interface_id = iid) ∨
  (strContainsChar iid '.' = true ∧
    ∃ i ∈ l, i.interface_id = (strSplitOn iid '.').headD "" ∧
      ∃ v ∈ i.vlanInterfaces, v.vlan_id = (strSplitOn iid '.').getLastD "") ∨
  (∃ i ∈ l, ∃ s ∈ i.interfaces, s.variant.isInline = true ∧
    (iid = s.nicid ∨ ∃ h ∈ strSplitOn s.nicid '-', h = iid))


theorem interfaceResolvesAmended_iff (e : Engine) (iid : String) :
    interfaceResolvesAmended e iid = true ↔ MatchSpec iid e.physicalInterfaces := by
  simp only [interfaceResolvesAmended, MatchSpec, Bool.or_eq_true, Bool.and_eq_true,
    List.any_eq_true, decide_eq_true_eq]
  exact or_assoc

theorem getRefAux_ok_or_notfound (iid : String) (l : List Intf) (k : Nat) :
    (getRefAux iid l k).isOk = true ∨ getRefAux iid l k = .error .interfaceNotFound := by
  induction l generalizing k with
  | nil => right; rfl
  | cons i rest ih =>
    simp only [getRefAux]
    by_cases hA : i.interface_id = iid
    · rw [if_pos hA]; left; rfl
    · rw [if_neg hA]
      by_cases hdot : strContainsChar iid '.' = true
      · rw [if_pos hdot]
        by_cases hHead : i.interface_id = (strSplitOn iid '.').headD ""
        · rw [if_pos hHead]
          by_cases hvl : i.has_vlan = true
          · rw [if_pos hvl]
            cases hfind : findVlanIdx i.vlanInterfaces ((strSplitOn iid '.').getLastD "") with
            | some v => left; rfl
            | none => right; rfl
          · rw [if_neg hvl]; exact ih (k + 1)
        · rw [if_neg hHead]; exact ih (k + 1)
      · rw [if_neg hdot]
        by_cases hil : (i.has_interfaces && inlineIdMatch iid i.interfaces) = true
        · rw [if_pos hil]; left; rfl
        · rw [if_neg hil]; exact ih (k + 1)

theorem MatchSpec_cons (iid : String) (i : Intf) (rest : List Intf) :
    MatchSpec iid (i :: rest) ↔
      ((i.interface_id = iid ∨
        (strContainsChar iid '.' = true ∧
          i.interface_id = (strSplitOn iid '.').headD "" ∧
          ∃ v ∈ i.vlanInterfaces, v.vlan_id = (strSplitOn iid '.').getLastD "") ∨
        (∃ s ∈ i.interfaces, s.variant.isInline = true ∧
          (iid = s.nicid ∨ ∃ h ∈ strSplitOn s.nicid '-', h = iid))) ∨
        MatchSpec iid rest) := by
  constructor
  · rintro (⟨j, hj, hjid⟩ | ⟨hd2, j, hj, hex⟩ | ⟨j, hj, hex⟩)
    · rcases List.mem_cons.mp hj with rfl | hj2
      · exact Or.inl (Or.inl hjid)
      · exact Or.inr (Or.inl ⟨j, hj2, hjid⟩)
    · rcases List.mem_cons.mp hj with rfl | hj2
      · exact Or.inl (Or.inr (Or.inl ⟨hd2, hex⟩))
      · exact Or.inr (Or.inr (Or.inl ⟨hd2, j, hj2, hex⟩))
    · rcases List.mem_cons.mp hj with rfl | hj2
      · exact Or.inl (Or.inr (Or.inr hex))
      · exact Or.inr (Or.inr (Or.inr ⟨j, hj2, hex⟩))
  · rintro ((hjid | ⟨hd2, hh, hex⟩ | hex) | (⟨j, hj, hjid⟩ | ⟨hd2, j, hj, hex⟩ | ⟨j, hj, hex⟩))
    · exact Or.inl ⟨i, by simp, hjid⟩
    · exact Or.inr (Or.inl ⟨hd2, i, by simp, hh, hex⟩)
    · exact Or.inr (Or.inr ⟨i, by simp, hex⟩)
    · exact Or.inl ⟨j, by simp [hj], hjid⟩
    · exact Or.inr (Or.inl ⟨hd2, j, by simp [hj], hex⟩)
    · exact Or.inr (Or.inr ⟨j, by simp [hj], hex⟩)

theorem getRefAux_isOk_iff (iid : String) (l : List Intf) (k : Nat)
    (hu : l.Pairwise (fun a b => a.interface_id ≠ b.interface_id))
    (hd : ∀ i ∈ l, strContainsChar i.interface_id '.' = false)
    (hn : ∀ i ∈ l, ∀ s ∈ i.interfaces, s.variant.isInline = true →
      strContainsChar s.nicid '.' = false ∧
      ∀ h ∈ strSplitOn s.nicid '-', strContainsChar h '.' = false) :
    ((getRefAux iid l k).isOk = true ↔ MatchSpec iid l) := by
  induction l generalizing k with
  | nil =>
    constructor
    · intro h; cases h
    · intro h
      rcases h with ⟨j, hj, _⟩ | ⟨_, j, hj, _⟩ | ⟨j, hj, _⟩ <;>
        exact absurd hj (List.not_mem_nil j)
  | cons i rest ih =>
    obtain ⟨hu1, hu2⟩ := List.pairwise_cons.mp hu
    have hdr : ∀ j ∈ rest, strContainsChar j.interface_id '.' = false :=
      fun j hj => hd j (by simp [hj])
    have hnr : ∀ j ∈ rest, ∀ s ∈ j.interfaces, s.variant.isInline = true →
        strContainsChar s.nicid '.' = false ∧
        ∀ h ∈ strSplitOn s.nicid '-', strContainsChar h '.' = false :=
      fun j hj => hn j (by simp [hj])
    have ihr := ih (k + 1) hu2 hdr hnr
    simp only [getRefAux]
    by_cases hA : i.interface_id = iid
    · rw [if_pos hA]
      exact ⟨fun _ => Or.inl ⟨i, by simp, hA⟩, fun _ => rfl⟩
    · rw [if_neg hA]
      by_cases hdot : strContainsChar iid '.' = true
      · rw [if_pos hdot]
        have noInline : ∀ j ∈ (i :: rest), ¬ ∃ s ∈ j.interfaces,
            s.variant.isInline = true ∧
            (iid = s.nicid ∨ ∃ h ∈ strSplitOn s.nicid '-', h = iid) := by
          rintro j hj ⟨s, hs, hinl, hcase⟩
          obtain ⟨hn1, hn2⟩ := hn j hj s hs hinl
          rcases hcase with hc | ⟨h, hh, rfl⟩
          · rw [hc, hn1] at hdot; exact Bool.false_ne_true hdot
          · rw [hn2 _ hh] at hdot; exact Bool.false_ne_true hdot
        by_cases hHead : i.interface_id = (strSplitOn iid '.').headD ""
        · rw [if_pos hHead]
          by_cases hvl : i.has_vlan = true
          · rw [if_pos hvl]
            cases hfind : findVlanIdx i.vlanInterfaces ((strSplitOn iid '.').getLastD "") with
            | some v =>
              constructor
              · intro _
                refine Or.inr (Or.inl ⟨hdot, i, by simp, hHead, ?_⟩)
                have hsome : (findVlanIdx i.vlanInterfaces
                    ((strSplitOn iid '.').getLastD "")).isSome = true := by
                  rw [hfind]; rfl
                exact (findVlanIdx_isSome_iff _ _).mp hsome
              · intro _; rfl
            | none =>
              constructor
              · intro h; cases h
              · intro hm
                exfalso
                rcases hm with ⟨j, hj, hjid⟩ | ⟨_, j, hj, hjh, v, hv, hvid⟩ | ⟨j, hj, hrest2⟩
                · rcases List.mem_cons.mp hj with rfl | hj2
                  · exact hA hjid
                  · have hcf := hdr j hj2
                    rw [hjid] at hcf
                    exact Bool.false_ne_true (hcf.symm.trans hdot)
                · rcases List.mem_cons.mp hj with rfl | hj2
                  · have hsome : (findVlanIdx j.vlanInterfaces
                        ((strSplitOn iid '.').getLastD "")).isSome = true :=
                      (findVlanIdx_isSome_iff _ _).mpr ⟨v, hv, hvid⟩
                    rw [hfind] at hsome
                    exact Bool.false_ne_true hsome
                  · exact hu1 j hj2 (hHead.trans hjh.symm)
                · exact noInline j hj hrest2
          · rw [if_neg hvl]
            constructor
            · intro h
              rcases ihr.mp h with ⟨j, hj, hjid⟩ | ⟨hd2, j, hj, hjh, hex⟩ | ⟨j, hj, hr2⟩
              · exact Or.inl ⟨j, by simp [hj], hjid⟩
              · exact Or.inr (Or.inl ⟨hd2, j, by simp [hj], hjh, hex⟩)
              · exact Or.inr (Or.inr ⟨j, by simp [hj], hr2⟩)
            · intro hm
              refine ihr.mpr ?_
              rcases hm with ⟨j, hj, hjid⟩ | ⟨hd2, j, hj, hjh, v, hv, hvid⟩ | ⟨j, hj, hr2⟩
              · rcases List.mem_cons.mp hj with rfl | hj2
                · exact absurd hjid hA
                · exact Or.inl ⟨j, hj2, hjid⟩
              · rcases List.mem_cons.mp hj with rfl | hj2
                · exfalso
                  have hne : j.vlanInterfaces ≠ [] := by
                    intro hemp; rw [hemp] at hv; exact List.not_mem_nil v hv
                  have : j.has_vlan = true := by
                    simp [Intf.has_vlan, List.isEmpty_iff, hne]
                  exact hvl this
                · exact Or.inr (Or.inl ⟨hd2, j, hj2, hjh, v, hv, hvid⟩)
              · rcases List.mem_cons.mp hj with rfl | hj2
                · exact absurd hr2 (noInline j (by simp))
                · exact Or.inr (Or.inr ⟨j, hj2, hr2⟩)
        · rw [if_neg hHead]
          constructor
          · intro h
            rcases ihr.mp h with ⟨j, hj, hjid⟩ | ⟨hd2, j, hj, hjh, hex⟩ | ⟨j, hj, hr2⟩
            · exact Or.inl ⟨j, by simp [hj], hjid⟩
            · exact Or.inr (Or.inl ⟨hd2, j, by simp [hj], hjh, hex⟩)
            · exact Or.inr (Or.inr ⟨j, by simp [hj], hr2⟩)
          · intro hm
            refine ihr.mpr ?_
            rcases hm with ⟨j, hj, hjid⟩ | ⟨hd2, j, hj, hjh, hex⟩ | ⟨j, hj, hr2⟩
            · rcases List.mem_cons.mp hj with rfl | hj2
              · exact absurd hjid hA
              · exact Or.inl ⟨j, hj2, hjid⟩
            · rcases List.mem_cons.mp hj with rfl | hj2
              · exact absurd hjh hHead
              · exact Or.inr (Or.inl ⟨hd2, j, hj2, hjh, hex⟩)
            · rcases List.mem_cons.mp hj with rfl | hj2
              · exact absurd hr2 (noInline j (by simp))
              · exact Or.inr (Or.inr ⟨j, hj2, hr2⟩)
      · rw [if_neg hdot]
        by_cases hil : (i.has_interfaces && inlineIdMatch iid i.interfaces) = true
        · rw [if_pos hil]
          constructor
          · intro _
            obtain ⟨_, hmatch⟩ := Bool.and_eq_true_iff.mp hil
            obtain ⟨s, hs, hrest2⟩ := List.any_eq_true.mp hmatch
            obtain ⟨hinl, hcase⟩ := Bool.and_eq_true_iff.mp hrest2
            refine Or.inr (Or.inr ⟨i, by simp, s, hs, hinl, ?_⟩)
            rcases Bool.or_eq_true_iff.mp hcase with hc | hc
            · exact Or.inl (of_decide_eq_true hc)
            · obtain ⟨h, hh, hheq⟩ := List.any_eq_true.mp hc
              exact Or.inr ⟨h, hh, of_decide_eq_true hheq⟩
          · intro _; rfl
        · rw [if_neg hil]
          constructor
          · intro h
            rcases ihr.mp h with ⟨j, hj, hjid⟩ | ⟨hd2, hex⟩ | ⟨j, hj, hr2⟩
            · exact Or.inl ⟨j, by simp [hj], hjid⟩
            · exact absurd hd2 hdot
            · exact Or.inr (Or.inr ⟨j, by simp [hj], hr2⟩)
          · intro hm
            refine ihr.mpr ?_
            rcases hm with ⟨j, hj, hjid⟩ | ⟨hd2, hex⟩ | ⟨j, hj, hr2⟩
            · rcases List.mem_cons.mp hj with rfl | hj2
              · exact absurd hjid hA
              · exact Or.inl ⟨j, hj2, hjid⟩
            · exact absurd hd2 hdot
            · rcases List.mem_cons.mp hj with rfl | hj2
              · exfalso
                obtain ⟨s, hs, hinl, hcase⟩ := hr2
                have h1 : j.has_interfaces = true := by
                  have hne : j.interfaces ≠ [] := by
                    intro hemp; rw [hemp] at hs; exact List.not_mem_nil s hs
                  simp [Intf.has_interfaces, List.isEmpty_iff, hne]
                have h2 : inlineIdMatch iid j.interfaces = true := by
                  refine List.any_eq_true.mpr ⟨s, hs, ?_⟩
                  refine Bool.and_eq_true_iff.mpr ⟨hinl, ?_⟩
                  rcases hcase with hc | ⟨h, hh, rfl⟩
                  · exact Bool.or_eq_true_iff.mpr (Or.inl (decide_eq_true hc))
                  · exact Bool.or_eq_true_iff.mpr
                      (Or.inr (List.any_eq_true.mpr ⟨h, hh, decide_eq_true rfl⟩))
                rw [h1, h2] at hil
                exact hil rfl
              · exact Or.inr (Or.inr ⟨j, hj2, hr2⟩)

/-- Engine holding one inline pair "1-2" (top-level id "1"): the C5
counterexample input. -/
def engineC5x : Engine :=
  ⟨"single_fw",
    [⟨"1", [⟨.inline_interface, none, none, none, "1-2", []⟩], [], none, none, none⟩]⟩

/-- C5 counterexample: querying the FULL inline pair id "1-2" resolves an
interface, although none of the claim's three match conditions holds ("1-2"
is no top-level id, no composite VLAN id, and neither half of the pair), so
the claim's "raises InterfaceNotFound if and only if no such match exists"
fails in the only-if direction. -/
theorem get_full_inline_id_resolves :
    (InterfaceModifier.get engineC5x "1-2").isOk = true ∧
    interfaceResolvesPerClaim engineC5x "1-2" = false := by
  exact ⟨rfl, rfl⟩

/-- C5 (amended): `InterfaceModifier.get(interface_id)` succeeds exactly
when the id matches a top-level interface id, a composite VLAN id "X.Y"
with X existing and carrying VLAN Y, or an existing inline pair's full
nicid or either of its halves; otherwise it raises InterfaceNotFound.
Hypotheses (true of real engine data): top-level interface ids are unique
and contain no '.', and top-level inline nicids and their halves contain
no '.'. -/
theorem get_raises_iff_no_match (e : Engine) (iid : String)
    (hu : e.physicalInterfaces.Pairwise (fun a b => a.interface_id ≠ b.interface_id))
    (hd : ∀ i ∈ e.physicalInterfaces, strContainsChar i.interface_id '.' = false)
    (hn : ∀ i ∈ e.physicalInterfaces, ∀ s ∈ i.interfaces, s.variant.isInline = true →
      strContainsChar s.nicid '.' = false ∧
      ∀ h ∈ strSplitOn s.nicid '-', strContainsChar h '.' = false) :
    ((InterfaceModifier.get e iid).isOk = interfaceResolvesAmended e iid) ∧
    (interfaceResolvesAmended e iid = false →
      InterfaceModifier.get e iid = .error .interfaceNotFound) := by
  have hiff := getRefAux_isOk_iff iid e.physicalInterfaces 0 hu hd hn
  have hbridge := interfaceResolvesAmended_iff e iid
  have hbool : (InterfaceModifier.get e iid).isOk = interfaceResolvesAmended e iid :=
    Bool.eq_iff_iff.mpr (hiff.trans hbridge.symm)
  refine ⟨hbool, fun hf => ?_⟩
  rcases getRefAux_ok_or_notfound iid e.physicalInterfaces 0 with hok | herr
  · have hok2 : (InterfaceModifier.get e iid).isOk = true := hok
    rw [hbool, hf] at hok2
    exact absurd hok2 Bool.false_ne_true
  · exact herr

/-- Engine with an inline pair and a VLAN interface, used to witness the
amended C5 at the inline-half query "2". -/
def engineC5w : Engine :=
  ⟨"single_fw",
    [⟨"1", [⟨.inline_interface, none, none, none, "1-2", []⟩], [], none, none, none⟩,
     ⟨"3", [],
      [⟨"3.100",
        [⟨.single_node_interface, some "9.9.9.9", some "9.9.9.0/24", some 1, "3.100",
          [(.primary_mgt, false)]⟩],
        none, none, none, none⟩],
      none, none, none⟩]⟩

theorem get_raises_iff_no_match_witness :
    ((InterfaceModifier.get engineC5w "2").isOk =
      interfaceResolvesAmended engineC5w "2") ∧
    (interfaceResolvesAmended engineC5w "2" = false →
      InterfaceModifier.get engineC5w "2" = .error .interfaceNotFound) :=
  get_raises_iff_no_match engineC5w "2" (by decide) (by decide) (by decide)
